import Mathlib

deriving instance DecidableEq for Except

/-!
Shallow embedding of the KineticAI synchronization-and-ingestion pipeline.

The definitions below are translated from the Python sources of the
repository:

* `services/external_data_gateway/src/rate_limiter.py` (`RateLimiter.acquire`)
* `services/external_data_gateway/src/sync.py` (`SyncManager`: `update_status`,
  `get_status`, `start_sync`, and the `backoff.on_exception` retry wrapper used
  by `fetch_activities` / `fetch_fit_file` / `fetch_gear`)
* `services/external_data_gateway/src/main.py` (`get_sync_status` endpoint)
* `services/data_ingestion/src/data_ingestion/main.py` (`start_upload`,
  `get_upload_status`, `update_activity_status`, `increment_completed_tasks`,
  `process_with_status`)

Modelling conventions:

* Redis is the shared status store.  A Redis instance is modelled as a
  function from key strings to optional records.  `redis.set`/`redis.get`
  on a key are modelled as updates/lookups of that function.
* Wall-clock timestamps (`last_updated` fields, `datetime.now()`) carry no
  information used by any control decision and are omitted from the records.
* Network calls are external collaborators; their outcomes (success /
  exception class) are inputs to the embedded functions.
* FastAPI background tasks are executed by Starlette strictly sequentially,
  in the order they were added, after the response is sent; the embedding
  runs scheduled sub-tasks sequentially in order.
-/

/-- A string-keyed store (one Redis key namespace). -/
def StrMap (α : Type) : Type := String → Option α

/-- The empty store. -/
def StrMap.empty {α : Type} : StrMap α := fun _ => none

/-- Store `v` under key `k` (Redis `SET`). -/
def StrMap.set {α : Type} (m : StrMap α) (k : String) (v : α) : StrMap α :=
  fun k' => if k' = k then some v else m k'

theorem StrMap.set_self {α : Type} (m : StrMap α) (k : String) (v : α) :
    m.set k v k = some v := by
  simp [StrMap.set]

theorem StrMap.set_other {α : Type} (m : StrMap α) (k k' : String) (v : α)
    (h : k' ≠ k) : m.set k v k' = m k' := by
  simp [StrMap.set, h]

/-! ## RateLimiter (`rate_limiter.py`)

`acquire` builds the counter key as `f"{key}:{int(now)}"` (line 17), i.e. the
key embeds the current time truncated to whole *seconds*, not to whole
rate-limit periods.  `pipe.expire(window_key, self.period)` (line 20) only
sets a time-to-live of `period` seconds on the counter; since the key embeds
the current second, the counter is never incremented again after that second
has passed, so (for `period ≥ 1`) the expiry only garbage-collects dead
counters and never affects a counter that is still being incremented.  The
embedding therefore keeps all counters and ignores the TTL.  Time is modelled
as a natural number of whole seconds (the result of `int(now)`). -/

/-- State of the rate-limiter's backing store: the counter stored under each
window key (absent keys count as 0, matching Redis `INCR` on a missing key). -/
def RateLimiterState : Type := StrMap Nat

/-- The counter key for `key` at time `now`: `f"{key}:{int(now)}"`
(rate_limiter.py line 17). -/
def windowKey (key : String) (now : Nat) : String :=
  key ++ (":") ++ toString now

/-- `RateLimiter.acquire` (rate_limiter.py lines 14-25): increment the counter
under `windowKey key now`, set its TTL to `period` (a no-op in this model, see
above), and return `true` iff the post-increment count is `≤ requests`.
`requests` is `settings.RATE_LIMIT_REQUESTS` and `period` is
`settings.RATE_LIMIT_PERIOD` (defaults 60 and 60). -/
def RateLimiter.acquire (requests : Nat) (_period : Nat) (st : RateLimiterState)
    (key : String) (now : Nat) : Bool × RateLimiterState :=
  let wk := windowKey key now
  let currentRequests := (st wk).getD 0 + 1
  let st' := st.set wk currentRequests
  (decide (currentRequests ≤ requests), st')

/-! ## Retry wrapper (`backoff.on_exception` in `sync.py`)

`fetch_activities`, `fetch_fit_file` and `fetch_gear` are each decorated with
`backoff.on_exception(backoff.expo, (aiohttp.ClientError, asyncio.TimeoutError),
max_tries=settings.MAX_RETRIES)` (sync.py lines 105-109, 170-174, 198-202).
`max_tries` bounds the total number of calls.  An exception that is an
instance of the tuple is retried until the attempt budget is exhausted, at
which point it is re-raised; any other exception propagates immediately.
Note that `aiohttp.ClientResponseError` — raised by `response.raise_for_status()`
for every non-2xx HTTP status, 4xx and 5xx alike — is a subclass of
`aiohttp.ClientError` and therefore belongs to the retried tuple. -/

/-- Exceptions a provider fetch can raise, classified by how the `backoff`
decorator's exception tuple sees them. -/
inductive FetchError : Type where
  /-- `aiohttp.ClientResponseError` with the given HTTP status (raised by
  `raise_for_status` for any 4xx/5xx response); subclass of `aiohttp.ClientError`. -/
  | clientResponseError : Nat → FetchError
  /-- Any other `aiohttp.ClientError` (transport-level failure). -/
  | transportError : FetchError
  /-- `asyncio.TimeoutError`. -/
  | timeoutError : FetchError
  /-- An exception outside the tuple `(aiohttp.ClientError, asyncio.TimeoutError)`. -/
  | otherError : FetchError
deriving DecidableEq

/-- Whether the exception is an instance of the decorator's tuple
`(aiohttp.ClientError, asyncio.TimeoutError)` — the condition under which
`backoff` retries instead of re-raising immediately. -/
def FetchError.retriable : FetchError → Bool
  | .clientResponseError _ => true
  | .transportError => true
  | .timeoutError => true
  | .otherError => false

/-- One run of a function wrapped by `backoff.on_exception` with
`max_tries = fuel` starting at attempt index `start`.  `attempt i` is the
outcome of the `i`-th call (0-based).  Returns the overall outcome together
with the index one past the last attempt made (so with `start = 0` the second
component is the total number of calls). -/
def backoffCall {α : Type} (attempt : Nat → Except FetchError α) :
    Nat → Nat → Except FetchError α × Nat
  | 0, start => (Except.error FetchError.otherError, start)
  | 1, start => (attempt start, start + 1)
  | n + 2, start =>
    match attempt start with
    | Except.ok a => (Except.ok a, start + 1)
    | Except.error e =>
      if e.retriable then backoffCall attempt (n + 1) (start + 1)
      else (Except.error e, start + 1)

/-- If every attempt raises a retriable exception, the wrapper makes exactly
`n` calls (`n = max_tries ≥ 1`) and re-raises the last attempt's exception. -/
theorem backoffCall_all_retriable_fail {α : Type}
    (attempt : Nat → Except FetchError α) (e : Nat → FetchError) :
    ∀ n start, 1 ≤ n →
    (∀ i, i < n → attempt (start + i) = Except.error (e (start + i))) →
    (∀ i, (e i).retriable = true) →
    backoffCall attempt n start = (Except.error (e (start + n - 1)), start + n) := by
  intro n
  induction n with
  | zero => intro start h; omega
  | succ m ih =>
    intro start _ hfail hret
    match m with
    | 0 =>
      have h0 := hfail 0 (by omega)
      simp only [Nat.add_zero] at h0
      simp [backoffCall, h0]
    | k + 1 =>
      have h0 := hfail 0 (by omega)
      simp only [Nat.add_zero] at h0
      have step : backoffCall attempt (k + 2) start
          = backoffCall attempt (k + 1) (start + 1) := by
        simp [backoffCall, h0, hret start]
      rw [step]
      have ih' := ih (start + 1) (by omega)
        (fun i hi => by
          have := hfail (i + 1) (by omega)
          simpa [Nat.add_assoc, Nat.add_comm 1 i] using this)
        hret
      rw [ih']
      have h1 : start + 1 + (k + 1) - 1 = start + (k + 1 + 1) - 1 := by omega
      have h2 : start + 1 + (k + 1) = start + (k + 1 + 1) := by omega
      rw [h1, h2]

/-- If the first `n - 1` attempts raise retriable exceptions and attempt
`n - 1` succeeds with `a`, the wrapper returns `a` after exactly `n` calls. -/
theorem backoffCall_eventual_ok {α : Type}
    (attempt : Nat → Except FetchError α) (e : Nat → FetchError) (a : α) :
    ∀ n start, 1 ≤ n →
    (∀ i, i < n - 1 → attempt (start + i) = Except.error (e (start + i))) →
    (∀ i, (e i).retriable = true) →
    attempt (start + n - 1) = Except.ok a →
    backoffCall attempt n start = (Except.ok a, start + n) := by
  intro n
  induction n with
  | zero => intro start h; omega
  | succ m ih =>
    intro start _ hfail hret hok
    match m with
    | 0 =>
      simp only [Nat.add_sub_cancel] at hok
      simp [backoffCall, hok]
    | k + 1 =>
      have h0 := hfail 0 (by omega)
      simp only [Nat.add_zero] at h0
      have step : backoffCall attempt (k + 2) start
          = backoffCall attempt (k + 1) (start + 1) := by
        simp [backoffCall, h0, hret start]
      rw [step]
      have ih' := ih (start + 1) (by omega)
        (fun i hi => by
          have := hfail (i + 1) (by omega)
          simpa [Nat.add_assoc, Nat.add_comm 1 i] using this)
        hret
        (by
          have : start + 1 + (k + 1) - 1 = start + (k + 2) - 1 := by omega
          rw [this]; exact hok)
      rw [ih']
      have h2 : start + 1 + (k + 1) = start + (k + 1 + 1) := by omega
      rw [h2]

/-- A non-retriable exception (outside the decorator's tuple) propagates on
the first call: exactly one attempt is made. -/
theorem backoffCall_nonretriable_immediate {α : Type}
    (attempt : Nat → Except FetchError α) (e : FetchError)
    (n : Nat) (hn : 1 ≤ n)
    (h0 : attempt 0 = Except.error e) (hnr : e.retriable = false) :
    backoffCall attempt n 0 = (Except.error e, 1) := by
  match n with
  | 1 => simp [backoffCall, h0]
  | k + 2 => simp [backoffCall, h0, hnr]

/-! ## SyncManager (`sync.py`)

`SyncStatusResponse` (models.py lines 25-31) is the record persisted under
the Redis key `f"sync:status:{user_id}"`.  The `last_updated` timestamp is
omitted (see the module comment). -/

/-- The `SyncStatus` enum (models.py lines 6-10). -/
inductive SyncStatus : Type where
  | pending
  | in_progress
  | completed
  | failed
deriving DecidableEq

/-- The persisted sync-status record (models.py `SyncStatusResponse`,
without the wall-clock `last_updated` field). -/
structure SyncStatusResponse : Type where
  status : SyncStatus
  total_activities : Nat
  processed_activities : Nat
  failed_activities : Nat
  error_message : Option String
deriving DecidableEq

/-- The per-user sync status store (the `sync:status:*` keyspace of Redis,
keyed here directly by `user_id`). -/
def SyncStore : Type := StrMap SyncStatusResponse

/-- The default record returned by `SyncManager.get_status` when Redis holds
no data for the user (sync.py lines 357-360): status PENDING with the model's
default zero counters and no error. -/
def defaultSyncStatus : SyncStatusResponse :=
  { status := SyncStatus.pending
    total_activities := 0
    processed_activities := 0
    failed_activities := 0
    error_message := none }

/-- `SyncManager.get_status` (sync.py lines 353-362). -/
def getStatus (store : SyncStore) (userId : String) : SyncStatusResponse :=
  (store userId).getD defaultSyncStatus

/-- A sync run's view of the store plus the chronological list of records it
persisted (each `redis.set` in `update_status` appends one record). -/
structure SyncState : Type where
  store : SyncStore
  writes : List SyncStatusResponse

/-- `SyncManager.update_status` (sync.py lines 77-103): re-read the current
record (defaulting when absent), override each counter only when the
corresponding argument is not `None`, always overwrite `error_message` with
the `error` argument, and write the result back. -/
def updateStatus (s : SyncState) (userId : String) (status : SyncStatus)
    (total processed failed : Option Nat) (error : Option String) : SyncState :=
  let current := getStatus s.store userId
  let updated : SyncStatusResponse :=
    { status := status
      total_activities := total.getD current.total_activities
      processed_activities := processed.getD current.processed_activities
      failed_activities := failed.getD current.failed_activities
      error_message := error }
  { store := s.store.set userId updated, writes := s.writes ++ [updated] }

/-- Partition a list into consecutive batches of `n` items:
`[lst[i : i + n] for i in range(0, len(lst), n)]` (sync.py lines 284-287 and
309-312).  For `n = 0` the Python `range` raises `ValueError`; the run is
only defined for `n ≥ 1` (`settings.SYNC_BATCH_SIZE`, default 50). -/
def chunksAux {α : Type} (n : Nat) : Nat → List α → List (List α)
  | _, [] => []
  | 0, _ :: _ => []
  | fuel + 1, x :: xs => (x :: xs).take n :: chunksAux n fuel ((x :: xs).drop n)

/-- The batch partition itself; the fuel `l.length` suffices because each
step drops at least one element (`n ≥ 1`). -/
def chunks {α : Type} (n : Nat) (l : List α) : List (List α) :=
  chunksAux n l.length l

/-- Process the batches of one kind of item (activities: sync.py lines
284-307; gear: lines 309-332).  Each batch's item outcomes are the booleans
returned by `process_activity` / `process_gear` (both catch every exception
internally and return `False`, so `asyncio.gather` never yields an exception
object).  After each batch the accumulated `processed` and `failed` counts
are persisted with `total = totalArg` — `total_activities` for the activity
loop but `total_gear` for the gear loop. -/
def runBatches (userId : String) (totalArg : Nat)
    (init : SyncState × Nat × Nat) (batches : List (List Bool)) :
    SyncState × Nat × Nat :=
  batches.foldl
    (fun acc batch =>
      let batchProcessed := batch.count true
      let batchFailed := batch.count false
      let processed := acc.2.1 + batchProcessed
      let failed := acc.2.2 + batchFailed
      (updateStatus acc.1 userId SyncStatus.in_progress (some totalArg)
        (some processed) (some failed) none, processed, failed))
    init

/-- `SyncManager.start_sync` (sync.py lines 237-351) after both fetches have
succeeded, starting from store `store0`.  `actResults` and `gearResults` are
the per-item boolean outcomes of `process_activity` / `process_gear` for the
fetched activity and gear lists (so their lengths are the fetched list
lengths).  The writes performed are, in order:

1. `update_status(IN_PROGRESS)` (line 265);
2. `update_status(IN_PROGRESS, total=total_activities, processed=0, failed=0)`
   (lines 273-279) — note `total` is the number of *activities* only;
3. one write per activity batch with `total=total_activities` (lines 301-307);
4. one write per gear batch with `total=total_gear` (lines 326-332);
5. the final write with `COMPLETED` if `failed == 0` else `FAILED`, and
   `total=total_activities` (lines 334-341). -/
def startSync (store0 : SyncStore) (userId : String)
    (actResults gearResults : List Bool) (batchSize : Nat) : SyncState :=
  let s0 : SyncState := { store := store0, writes := [] }
  let s1 := updateStatus s0 userId SyncStatus.in_progress none none none none
  let totalActivities := actResults.length
  let totalGear := gearResults.length
  let s2 := updateStatus s1 userId SyncStatus.in_progress
    (some totalActivities) (some 0) (some 0) none
  let r3 := runBatches userId totalActivities (s2, 0, 0) (chunks batchSize actResults)
  let r4 := runBatches userId totalGear r3 (chunks batchSize gearResults)
  let finalStatus :=
    if r4.2.2 = 0 then SyncStatus.completed else SyncStatus.failed
  updateStatus r4.1 userId finalStatus (some totalActivities)
    (some r4.2.1) (some r4.2.2) none

/-- The `GET /sync/status/{user_id}` endpoint (main.py lines 86-89): it
returns `SyncManager.get_status` unconditionally — there is no 404 branch. -/
inductive HttpResult (α : Type) : Type where
  | ok : α → HttpResult α
  | error : Nat → HttpResult α
deriving DecidableEq

/-- `get_sync_status` (main.py lines 86-89). -/
def getSyncStatus (store : SyncStore) (userId : String) :
    HttpResult SyncStatusResponse :=
  HttpResult.ok (getStatus store userId)

/-! ## Data-ingestion service (`data_ingestion/main.py`)

Per-activity status lives under the Redis key `f"activity:{activity_id}"`.
The service writes the whole status record there as a JSON string with
`redis.set` and reads it with `redis.get`, so from its first write the key
is *string-typed*.  `increment_completed_tasks` then addresses the same key
with the *hash* commands `pipe.hincrby` / `pipe.hget` (main.py lines
270-273); Redis refuses hash commands on a string-typed key, so
`pipe.execute()` raises WRONGTYPE, no field is ever incremented, and the
promotion logic behind it (lines 274-277) is unreachable.  The embedding
therefore keeps only string-valued keyspaces and models the increment as a
fallible operation that fails whenever the blob exists — which is exactly
when the source reaches the pipeline, because of its `if current:` guard.

The poll endpoint `get_upload_status` reads the *hash* at key
`f"status:{activity_id}"` (main.py line 227) — a keyspace nothing in this
service ever writes, and distinct from the string keys above. -/

/-- The `UploadStatus` enum of the ingestion service. -/
inductive UploadStatus : Type where
  | pending
  | in_progress
  | completed
  | failed
deriving DecidableEq

/-- The JSON status blob stored at `f"activity:{activity_id}"`
(`ActivityStatusResponse` fields, without `activity_id` — it is the key —
and without the wall-clock `last_updated`).  `error_message` is written by
`start_upload` for an invalid FIT file; `error` is the distinct dict key
added by `update_activity_status` (main.py line 261). -/
structure ActivityRecord : Type where
  status : UploadStatus
  completed_tasks : Nat
  error_message : Option String
  error : Option String
deriving DecidableEq

/-- The response model of `start_upload` / `get_upload_status`
(`UploadStatusResponse`, without the wall-clock `last_updated`). -/
structure UploadStatusResponse : Type where
  batch_id : String
  status : UploadStatus
  error_message : Option String
  total_activities : Nat
  processed_activities : Nat
  failed_activities : Nat
deriving DecidableEq

/-- The ingestion service's view of Redis, split by keyspace.  Each key
holds one value of one Redis type; the `activity:*` and `batch:*` keys are
string-typed from their first `SET`, so no hash field ever exists under
them (a hash command against them raises WRONGTYPE, see the section
comment and `incrementCompletedTasks`). -/
structure IngestStore : Type where
  /-- JSON string values at keys `f"activity:{activity_id}"`. -/
  strings : StrMap ActivityRecord
  /-- JSON string values at keys `f"batch:{batch_id}"`. -/
  batches : StrMap UploadStatusResponse
  /-- Hashes at keys `f"status:{activity_id}"`, read by `get_upload_status`
  and written by nothing in this service. -/
  statusHashes : StrMap UploadStatusResponse

/-- The ingestion store with every keyspace empty. -/
def IngestStore.empty : IngestStore :=
  { strings := StrMap.empty
    batches := StrMap.empty
    statusHashes := StrMap.empty }

/-- Key of the per-activity JSON status blob: `f"activity:{activity_id}"`. -/
def activityKey (activityId : String) : String :=
  ("activity:") ++ activityId

/-- Key read by the poll endpoint: `f"status:{activity_id}"`
(main.py line 227). -/
def statusKey (activityId : String) : String :=
  ("status:") ++ activityId

/-- Key of the batch status blob: `f"batch:{batch_id}"` (main.py line 106). -/
def batchKey (batchId : String) : String :=
  ("batch:") ++ batchId

/-- `num_tasks = 3  # create_activity, store_laps, store_streams`
(main.py line 92). -/
def numSubTasks : Nat := 3

/-- `update_activity_status` (main.py lines 250-263): read the JSON blob; if
present, overwrite its `status`, add the `error` key when an error string is
given (`if error:`), and write the blob back; if absent, do nothing. -/
def updateActivityStatus (st : IngestStore) (activityId : String)
    (status : UploadStatus) (error : Option String) : IngestStore :=
  match st.strings (activityKey activityId) with
  | none => st
  | some r =>
    let r' : ActivityRecord :=
      { r with
        status := status
        error := match error with
          | some e => some e
          | none => r.error }
    { st with strings := st.strings.set (activityKey activityId) r' }

/-- An error response from the Redis server. -/
inductive RedisError : Type where
  /-- WRONGTYPE: a command addressed a key holding a value of another type. -/
  | wrongType : RedisError
deriving DecidableEq

/-- The pipeline of main.py lines 270-273 (`hincrby` on the
`completed_tasks` field, `hget` of its new value, `execute`) run against a
key that holds the JSON *string* blob.  Redis refuses hash commands on a
string-typed key, so `pipe.execute()` raises WRONGTYPE and no post-increment
value is produced. -/
def hincrbyOnStringKey : Except RedisError Nat :=
  Except.error RedisError.wrongType

/-- `increment_completed_tasks` (main.py lines 265-277): read the JSON blob
with `redis.get`; if absent (`if current:` fails) return without touching
the store; if present, run the hash pipeline against the same — string-typed
— key, which raises WRONGTYPE (see `hincrbyOnStringKey`).  The remainder of
the function (compare the post-increment value with `num_tasks`, promote the
blob to COMPLETED when they are equal, write the blob back — lines 274-277)
is therefore unreachable; it is kept here as the `Except.ok` branch of the
pipeline call so the promotion rule stays visible. -/
def incrementCompletedTasks (st : IngestStore) (activityId : String)
    (numTasks : Nat) : Except RedisError IngestStore :=
  match st.strings (activityKey activityId) with
  | none => Except.ok st
  | some r =>
    match hincrbyOnStringKey with
    | Except.error e => Except.error e
    | Except.ok completed =>
      let r' : ActivityRecord :=
        if completed = numTasks
        then { r with status := UploadStatus.completed }
        else r
      Except.ok
        { st with strings := st.strings.set (activityKey activityId) r' }

/-- `process_with_status` (main.py lines 279-332) for one scheduled sub-task
whose execution outcome is `ok` (with `errMsg` the formatted message
`f"Error in {task_func.__name__}: {e}"` when it raises): read the blob; if
its status is PENDING, move it to IN_PROGRESS; if it is FAILED, skip the task
entirely; otherwise run the task, then on success call
`increment_completed_tasks` — whose WRONGTYPE error is caught by the inner
`try`/`except` of lines 306-313, logged, and swallowed ("Still consider the
task successful"), leaving the store as it was — and on failure mark the
blob FAILED with the error.  A missing blob skips the status check but still
runs the task (whose store updates are then no-ops, since both helpers
require the blob to exist). -/
def processWithStatus (st : IngestStore) (activityId : String)
    (numTasks : Nat) (ok : Bool) (errMsg : String) : IngestStore :=
  let runTask (st' : IngestStore) : IngestStore :=
    if ok then
      match incrementCompletedTasks st' activityId numTasks with
      | Except.ok s => s
      | Except.error _ => st'
    else updateActivityStatus st' activityId UploadStatus.failed (some errMsg)
  match st.strings (activityKey activityId) with
  | none => runTask st
  | some r =>
    if r.status = UploadStatus.failed then st
    else if r.status = UploadStatus.pending then
      runTask (updateActivityStatus st activityId UploadStatus.in_progress none)
    else runTask st

/-- One sub-task of an accepted item (main.py lines 170-193). -/
inductive SubTaskKind : Type where
  | createActivity
  | storeLaps
  | storeStreams
deriving DecidableEq

/-- A background task queued by `start_upload`: which sub-task, for which
activity. -/
structure ScheduledTask : Type where
  activity_id : String
  task : SubTaskKind
deriving DecidableEq

/-- The uploaded file as `start_upload` sees it: its filename and the result
of the structural FIT parse `FitFile(file_content); next(fit_file.messages)`
(main.py lines 121-124).  The parser is an external collaborator, so the
parse outcome is an input: `parseError = some msg` means parsing raised with
message `msg`; `none` means the payload is structurally parseable. -/
structure FitFileInput : Type where
  filename : String
  parseError : Option String
deriving DecidableEq

/-- The filename check `file.filename.lower().endswith('.fit')`
(main.py line 86), expressed on the underlying character lists. -/
def isFitFilename (s : String) : Bool :=
  List.isSuffixOf ((".fit").data) (s.data.map Char.toLower)

/-- The three background tasks queued for one accepted activity, in order
(main.py lines 170-193): `create_activity`, `store_laps`, `store_streams`. -/
def scheduledFor (aid : String) : List ScheduledTask :=
  [ { activity_id := aid, task := SubTaskKind.createActivity }
  , { activity_id := aid, task := SubTaskKind.storeLaps }
  , { activity_id := aid, task := SubTaskKind.storeStreams } ]

/-- The body of `start_upload`'s per-activity loop (main.py lines 115-212)
for one `(activity, file)` pair, threading the store and the queued
background tasks.  An unparseable payload writes a FAILED blob with
`completed_tasks = 0` and a descriptive error and queues nothing (the loop
`continue`s to the next item); a parseable one writes a PENDING blob, bumps
it to IN_PROGRESS, and queues the three sub-tasks. -/
def processUploadItem (acc : IngestStore × List ScheduledTask)
    (item : String × FitFileInput) : IngestStore × List ScheduledTask :=
  let (st, tasks) := acc
  let (aid, file) := item
  match file.parseError with
  | some msg =>
    let failedRec : ActivityRecord :=
      { status := UploadStatus.failed
        completed_tasks := 0
        error_message := some (("Invalid FIT file: ") ++ msg)
        error := none }
    ({ st with strings := st.strings.set (activityKey aid) failedRec }, tasks)
  | none =>
    let pendingRec : ActivityRecord :=
      { status := UploadStatus.pending
        completed_tasks := 0
        error_message := none
        error := none }
    let st1 := { st with strings := st.strings.set (activityKey aid) pendingRec }
    let st2 := updateActivityStatus st1 aid UploadStatus.in_progress none
    (st2, tasks ++ scheduledFor aid)

/-- `start_upload` (main.py lines 66-223): 422 when the file count does not
match the activity count or a filename is not `.fit`; otherwise initialize
the batch blob, run the per-activity loop, and return the batch status.
Returns the HTTP result, the store after the synchronous part, and the
queued background tasks in order. -/
def startUpload (st : IngestStore) (batchId : String)
    (activityIds : List String) (files : List FitFileInput) :
    HttpResult UploadStatusResponse × IngestStore × List ScheduledTask :=
  if activityIds.length ≠ files.length then (HttpResult.error 422, st, [])
  else if files.any (fun f => !isFitFilename f.filename) then
    (HttpResult.error 422, st, [])
  else
    let batchStatus : UploadStatusResponse :=
      { batch_id := batchId
        status := UploadStatus.pending
        error_message := none
        total_activities := activityIds.length
        processed_activities := 0
        failed_activities := 0 }
    let st1 := { st with batches := st.batches.set (batchKey batchId) batchStatus }
    let folded := (activityIds.zip files).foldl processUploadItem (st1, [])
    (HttpResult.ok batchStatus, folded.1, folded.2)

/-- `get_upload_status` (main.py lines 225-248): `hgetall` on
`f"status:{activity_id}"`; an empty hash is a 404, otherwise the hash fields
become the response. -/
def getUploadStatus (st : IngestStore) (activityId : String) :
    HttpResult UploadStatusResponse :=
  match st.statusHashes (statusKey activityId) with
  | none => HttpResult.error 404
  | some h => HttpResult.ok h

/-- Run the queued background tasks sequentially in order (Starlette executes
`BackgroundTasks` this way), giving each task its execution outcome: `true`
with an ignored message for success, `false` with the formatted error message
for a raised exception. -/
def runTasks (st : IngestStore) (numTasks : Nat)
    (l : List (ScheduledTask × Bool × String)) : IngestStore :=
  l.foldl (fun s t => processWithStatus s t.1.activity_id numTasks t.2.1 t.2.2) st

/-! ## General lemmas -/

theorem string_eq_of_data_eq {a b : String} (h : a.data = b.data) : a = b := by
  cases a
  cases b
  exact congrArg String.mk (by simpa using h)

theorem activityKey_inj {a b : String} (h : activityKey a = activityKey b) :
    a = b := by
  have hd := congrArg String.data h
  simp only [activityKey, String.data_append] at hd
  exact string_eq_of_data_eq (List.append_cancel_left hd)

theorem count_true_add_count_false (l : List Bool) :
    l.count true + l.count false = l.length := by
  induction l with
  | nil => rfl
  | cons b t ih => cases b <;> simp [List.count_cons] <;> omega

theorem chunksAux_flatten {α : Type} (n : Nat) (hn : 0 < n) :
    ∀ (fuel : Nat) (l : List α), l.length ≤ fuel →
    (chunksAux n fuel l).flatten = l := by
  intro fuel
  induction fuel with
  | zero =>
    intro l hl
    match l, hl with
    | [], _ => rfl
  | succ m ih =>
    intro l hl
    match l with
    | [] => rfl
    | x :: xs =>
      simp only [chunksAux, List.flatten_cons]
      rw [ih ((x :: xs).drop n)
        (by simp only [List.length_drop, List.length_cons] at *; omega)]
      exact List.take_append_drop n (x :: xs)

theorem chunks_flatten_of_pos {α : Type} {n : Nat} (hn : 0 < n)
    (l : List α) : (chunks n l).flatten = l :=
  chunksAux_flatten n hn l.length l (Nat.le_refl _)

/-! ## Lemmas about `updateStatus`, `runBatches` and `startSync` -/

theorem updateStatus_store_self (s : SyncState) (userId : String)
    (st : SyncStatus) (a b c : Nat) (e : Option String) :
    (updateStatus s userId st (some a) (some b) (some c) e).store userId =
      some { status := st, total_activities := a, processed_activities := b,
             failed_activities := c, error_message := e } := by
  simp [updateStatus, StrMap.set_self]

theorem updateStatus_writes_all_some (s : SyncState) (userId : String)
    (st : SyncStatus) (a b c : Nat) (e : Option String) :
    (updateStatus s userId st (some a) (some b) (some c) e).writes =
      s.writes ++
        [{ status := st, total_activities := a, processed_activities := b,
           failed_activities := c, error_message := e }] := rfl

theorem runBatches_cons (userId : String) (t : Nat) (s : SyncState)
    (p f : Nat) (b : List Bool) (rest : List (List Bool)) :
    runBatches userId t (s, p, f) (b :: rest) =
      runBatches userId t
        (updateStatus s userId SyncStatus.in_progress (some t)
          (some (p + b.count true)) (some (f + b.count false)) none,
         p + b.count true, f + b.count false) rest := rfl

theorem runBatches_counts (userId : String) (t : Nat) :
    ∀ (bs : List (List Bool)) (s : SyncState) (p f : Nat),
    (runBatches userId t (s, p, f) bs).2 =
      (p + (bs.flatten).count true, f + (bs.flatten).count false) := by
  intro bs
  induction bs with
  | nil => intro s p f; simp [runBatches]
  | cons b rest ih =>
    intro s p f
    rw [runBatches_cons, ih]
    simp only [List.flatten_cons, List.count_append, Prod.mk.injEq]
    constructor <;> omega

theorem runBatches_writes (userId : String) (t : Nat) :
    ∀ (bs : List (List Bool)) (s : SyncState) (p f : Nat),
    ∃ w, (runBatches userId t (s, p, f) bs).1.writes = s.writes ++ w := by
  intro bs
  induction bs with
  | nil => intro s p f; exact ⟨[], by simp [runBatches]⟩
  | cons b rest ih =>
    intro s p f
    rw [runBatches_cons]
    obtain ⟨w, hw⟩ := ih
      (updateStatus s userId SyncStatus.in_progress (some t)
        (some (p + b.count true)) (some (f + b.count false)) none)
      (p + b.count true) (f + b.count false)
    refine ⟨[{ status := SyncStatus.in_progress, total_activities := t,
               processed_activities := p + b.count true,
               failed_activities := f + b.count false,
               error_message := none }] ++ w, ?_⟩
    rw [hw, updateStatus_writes_all_some, List.append_assoc]

theorem runBatches_counts' (userId : String) (t : Nat)
    (bs : List (List Bool)) (init : SyncState × Nat × Nat) :
    (runBatches userId t init bs).2 =
      (init.2.1 + (bs.flatten).count true, init.2.2 + (bs.flatten).count false) :=
  runBatches_counts userId t bs init.1 init.2.1 init.2.2

/-- The record persisted by `start_sync`'s final `update_status` call
(sync.py lines 334-341): `total` is the number of activities only, while
`processed`/`failed` accumulate over activities *and* gear. -/
theorem startSync_store (store0 : SyncStore) (userId : String)
    (actResults gearResults : List Bool) (batchSize : Nat)
    (hbs : 0 < batchSize) :
    (startSync store0 userId actResults gearResults batchSize).store userId =
      some { status := if actResults.count false + gearResults.count false = 0
                       then SyncStatus.completed else SyncStatus.failed
             total_activities := actResults.length
             processed_activities :=
               actResults.count true + gearResults.count true
             failed_activities :=
               actResults.count false + gearResults.count false
             error_message := none } := by
  simp only [startSync, runBatches_counts', updateStatus_store_self,
    chunks_flatten_of_pos hbs, Nat.zero_add]

theorem updateStatus_writes_shape (s : SyncState) (userId : String)
    (st : SyncStatus) (t p f : Option Nat) (e : Option String) :
    ∃ w, (updateStatus s userId st t p f e).writes = s.writes ++ [w] :=
  ⟨_, rfl⟩

theorem runBatches_writes' (userId : String) (t : Nat)
    (bs : List (List Bool)) (init : SyncState × Nat × Nat) :
    ∃ w, (runBatches userId t init bs).1.writes = init.1.writes ++ w :=
  runBatches_writes userId t bs init.1 init.2.1 init.2.2

/-- The second record persisted by `start_sync` (the write of sync.py lines
273-279, after both fetches and before any batch): IN_PROGRESS with
`total = len(activities)` — gear is not included — and zero counters. -/
theorem startSync_second_write (store0 : SyncStore) (userId : String)
    (actResults gearResults : List Bool) (batchSize : Nat) :
    (startSync store0 userId actResults gearResults batchSize).writes[1]? =
      some { status := SyncStatus.in_progress,
             total_activities := actResults.length,
             processed_activities := 0, failed_activities := 0,
             error_message := none } := by
  simp only [startSync]
  set s1 := updateStatus { store := store0, writes := [] } userId
    SyncStatus.in_progress none none none none with hs1
  set s2 := updateStatus s1 userId SyncStatus.in_progress
    (some actResults.length) (some 0) (some 0) none with hs2
  set r3 := runBatches userId actResults.length (s2, 0, 0)
    (chunks batchSize actResults) with hr3
  set r4 := runBatches userId gearResults.length r3
    (chunks batchSize gearResults) with hr4
  obtain ⟨wF, hF⟩ := updateStatus_writes_shape r4.1 userId
    (if r4.2.2 = 0 then SyncStatus.completed else SyncStatus.failed)
    (some actResults.length) (some r4.2.1) (some r4.2.2) none
  rw [hF]
  obtain ⟨wG, hG⟩ := runBatches_writes' userId gearResults.length
    (chunks batchSize gearResults) r3
  rw [← hr4] at hG
  rw [hG]
  obtain ⟨wA, hA⟩ := runBatches_writes' userId actResults.length
    (chunks batchSize actResults) (s2, 0, 0)
  rw [← hr3] at hA
  rw [hA]
  obtain ⟨w0, h0⟩ := updateStatus_writes_shape
    { store := store0, writes := [] } userId SyncStatus.in_progress
    none none none none
  rw [← hs1] at h0
  have h2 : s2.writes = s1.writes ++
      [{ status := SyncStatus.in_progress,
         total_activities := actResults.length,
         processed_activities := 0, failed_activities := 0,
         error_message := none }] := by
    rw [hs2, updateStatus_writes_all_some]
  rw [h2, h0]
  simp [List.getElem?_append, List.append_assoc]

/-! ## Claim theorems: sync-status accounting (C1, C2) -/

/-- C1 (counterexample): a run over 0 activities and 1 gear item (processed
successfully) reaches the terminal status COMPLETED with
`processed_items + failed_items = 1` but persisted `total_items = 0`; the
claimed identity `processed_items + failed_items == total_items`, with
`total_items` counting every attempted item (activities and gear), fails
because `start_sync`'s final write stores `total = total_activities` only. -/
theorem c1_counterexample :
    (startSync StrMap.empty ("u1") [] [true] 50).store ("u1") =
      some { status := SyncStatus.completed, total_activities := 0,
             processed_activities := 1, failed_activities := 0,
             error_message := none }
    ∧ ((startSync StrMap.empty ("u1") [] [true] 50).store ("u1")).map
        (fun r => r.processed_activities + r.failed_activities
          == r.total_activities) = some false := by
  exact ⟨by decide, by decide⟩

/-- C1 (amended): for every `start_sync` run whose two fetches succeed, the
final persisted record is terminal (COMPLETED or FAILED) and satisfies
`processed_items + failed_items = len(activities) + len(gear)` — but its
`total_items` field equals `len(activities)` only, so the spec identity
`processed_items + failed_items == total_items` holds exactly when the run
attempted no gear. -/
theorem c1_final_counts (store0 : SyncStore) (userId : String)
    (actResults gearResults : List Bool) (batchSize : Nat)
    (hbs : 0 < batchSize) :
    ∃ r, (startSync store0 userId actResults gearResults batchSize).store
        userId = some r
      ∧ (r.status = SyncStatus.completed ∨ r.status = SyncStatus.failed)
      ∧ r.processed_activities + r.failed_activities
          = actResults.length + gearResults.length
      ∧ r.total_activities = actResults.length
      ∧ (r.processed_activities + r.failed_activities = r.total_activities
          ↔ gearResults = []) := by
  refine ⟨_, startSync_store store0 userId actResults gearResults batchSize hbs,
    ?_, ?_, ?_, ?_⟩
  · by_cases h : actResults.count false + gearResults.count false = 0 <;>
      simp [h]
  · have ha := count_true_add_count_false actResults
    have hg := count_true_add_count_false gearResults
    simp only
    omega
  · rfl
  · have ha := count_true_add_count_false actResults
    have hg := count_true_add_count_false gearResults
    have hlen : gearResults = [] ↔ gearResults.length = 0 :=
      List.length_eq_zero.symm
    simp only
    rw [hlen]
    omega

/-- C1 (witness). -/
theorem c1_final_counts_witness :
    0 < 50
    ∧ ∃ r, (startSync StrMap.empty ("u1") [true] [false] 50).store ("u1")
        = some r
      ∧ (r.status = SyncStatus.completed ∨ r.status = SyncStatus.failed)
      ∧ r.processed_activities + r.failed_activities
          = [true].length + [false].length
      ∧ r.total_activities = [true].length
      ∧ (r.processed_activities + r.failed_activities = r.total_activities
          ↔ [false] = ([] : List Bool)) :=
  ⟨by decide, c1_final_counts StrMap.empty ("u1") [true] [false] 50 (by decide)⟩

/-- C2 (counterexample): in the spec's scenario — 3 activities of which one
fails and 1 gear item, batch size 50 — both the status persisted right after
the fetches and the final status carry `total_items = 3`, not the claimed
`len(activities) + len(gear) = 4`. -/
theorem c2_counterexample :
    ((startSync StrMap.empty ("U1") [true, true, false] [true] 50).writes[1]?).map
        (fun w => w.total_activities) = some 3
    ∧ ((startSync StrMap.empty ("U1") [true, true, false] [true] 50).store
        ("U1")).map (fun r => r.total_activities) = some 3
    ∧ (3 : Nat) ≠ 4 := by
  exact ⟨by decide, by decide, by decide⟩

/-- C2 (amended): the record persisted after the two fetches and before any
batch is IN_PROGRESS with `total_items = len(activities)` (gear not
included) and zero counters; in the 3-activities-with-one-failure plus
1-gear scenario the final persisted status is
`total_items=3, processed_items=3, failed_items=1, status=FAILED`. -/
theorem c2_prebatch_total (store0 : SyncStore) (userId : String)
    (actResults gearResults : List Bool) (batchSize : Nat) :
    (startSync store0 userId actResults gearResults batchSize).writes[1]? =
      some { status := SyncStatus.in_progress,
             total_activities := actResults.length,
             processed_activities := 0, failed_activities := 0,
             error_message := none }
    ∧ (startSync StrMap.empty ("U1") [true, true, false] [true] 50).store
        ("U1") =
      some { status := SyncStatus.failed, total_activities := 3,
             processed_activities := 3, failed_activities := 1,
             error_message := none } :=
  ⟨startSync_second_write store0 userId actResults gearResults batchSize,
   by decide⟩

/-! ## Claim theorems: sync-status polling (C10) -/

/-- C10 (counterexample): for a user for whom no sync was ever started (an
empty store), `GET /sync/status/{user_id}` does not return 404 — it returns
HTTP 200 with the default PENDING record produced by `get_status`. -/
theorem c10_counterexample :
    getSyncStatus StrMap.empty ("u9") = HttpResult.ok defaultSyncStatus
    ∧ getSyncStatus StrMap.empty ("u9") ≠ HttpResult.error 404 := by
  exact ⟨by decide, by decide⟩

/-- C10 (amended): the poll-sync-status endpoint returns the stored
SyncStatus for a user with a record, and for a user with no record it
returns a default record with status PENDING and zero counters (HTTP 200);
it never returns 404. -/
theorem c10_poll_sync_status (store : SyncStore) (userId : String) :
    (∀ r, store userId = some r →
      getSyncStatus store userId = HttpResult.ok r)
    ∧ (store userId = none →
      getSyncStatus store userId = HttpResult.ok defaultSyncStatus)
    ∧ ∀ c, getSyncStatus store userId ≠ HttpResult.error c := by
  refine ⟨?_, ?_, ?_⟩
  · intro r hr
    simp [getSyncStatus, getStatus, hr]
  · intro hn
    simp [getSyncStatus, getStatus, hn]
  · intro c
    simp [getSyncStatus]

/-- C10 (witness). -/
theorem c10_poll_sync_status_witness :
    getSyncStatus (StrMap.empty.set ("u1") defaultSyncStatus) ("u1")
      = HttpResult.ok defaultSyncStatus
    ∧ getSyncStatus StrMap.empty ("u2") = HttpResult.ok defaultSyncStatus :=
  ⟨(c10_poll_sync_status (StrMap.empty.set ("u1") defaultSyncStatus)
      ("u1")).1 defaultSyncStatus (by decide),
   (c10_poll_sync_status StrMap.empty ("u2")).2.1 (by decide)⟩

/-! ## Claim theorems: rate limiter (C3) -/

/-- C3 (code evaluation at the failing input): with limit `N = 1` and period
`W = 60`, two `acquire` calls for the same key at `now = 0` and `now = 1` —
both inside the fixed window `[0, 60)` — both return `true`, because
`acquire` keys its counter by `f"{key}:{int(now)}"`, i.e. by the current
*second*, not by the 60-second period; only a second call within the same
second (third conjunct) is refused.  The claim's `(N+1)`-th-call-in-window
behaviour therefore fails for any window longer than one second. -/
theorem c3_per_second_window :
    (RateLimiter.acquire 1 60 StrMap.empty ("sync:U2") 0).1 = true
    ∧ (RateLimiter.acquire 1 60
        (RateLimiter.acquire 1 60 StrMap.empty ("sync:U2") 0).2
        ("sync:U2") 1).1 = true
    ∧ (RateLimiter.acquire 1 60
        (RateLimiter.acquire 1 60 StrMap.empty ("sync:U2") 0).2
        ("sync:U2") 0).1 = false := by
  exact ⟨by decide, by decide, by decide⟩

/-! ## Claim theorems: retry policy (C4, C5) -/

/-- C4 (counterexample): a fetch that keeps failing with HTTP 404 — a 4xx
other than 429 — is retried like any other `aiohttp.ClientError`: with
`max_tries = 3` (the `MAX_RETRIES` default) the wrapper makes 3 attempts,
not the claimed immediate failure on the first attempt. -/
theorem c4_counterexample :
    backoffCall (fun _ => (Except.error (FetchError.clientResponseError 404) :
        Except FetchError Nat)) 3 0
      = (Except.error (FetchError.clientResponseError 404), 3)
    ∧ (3 : Nat) ≠ 1 := by
  exact ⟨by decide, by decide⟩

/-- C4 (amended): every exception in the decorator's tuple — transient
transport errors, timeouts, and *all* `ClientResponseError`s (5xx, 429, and
every other 4xx alike) — is retried up to the `max_tries` cap, the caller
seeing the terminal error after exactly `max_tries` attempts; only an
exception outside the tuple surfaces on the first attempt. -/
theorem c4_retry_classes {α : Type} (n : Nat) (hn : 1 ≤ n) (e : FetchError)
    (hre : e.retriable = true) :
    backoffCall (fun _ => (Except.error e : Except FetchError α)) n 0
      = (Except.error e, n)
    ∧ backoffCall
        (fun _ => (Except.error FetchError.otherError : Except FetchError α))
        n 0
      = (Except.error FetchError.otherError, 1) := by
  constructor
  · have := backoffCall_all_retriable_fail
      (fun _ => (Except.error e : Except FetchError α)) (fun _ => e) n 0 hn
      (fun _ _ => rfl) (fun _ => hre)
    simpa using this
  · exact backoffCall_nonretriable_immediate _ FetchError.otherError n hn rfl rfl

/-- C4 (witness). -/
theorem c4_retry_classes_witness :
    1 ≤ 3
    ∧ (FetchError.clientResponseError 404).retriable = true
    ∧ (backoffCall (fun _ => (Except.error (FetchError.clientResponseError 404) :
          Except FetchError Nat)) 3 0
        = (Except.error (FetchError.clientResponseError 404), 3)
      ∧ backoffCall
          (fun _ => (Except.error FetchError.otherError : Except FetchError Nat))
          3 0
        = (Except.error FetchError.otherError, 1)) :=
  ⟨by decide, by decide,
   c4_retry_classes 3 (by decide) (FetchError.clientResponseError 404)
     (by decide)⟩

/-- C5: under the `backoff.on_exception` wrapper with `max_tries = n`
(`MAX_RETRIES`, default 3): a call failing transiently on exactly the first
`n - 1` attempts and succeeding on attempt `n` yields the success with no
error after exactly `n` attempts, and a call failing transiently on all
attempts yields the last error after exactly `n` attempts — no more, no
fewer. -/
theorem c5_retry_attempt_counts {α : Type} (n : Nat) (hn : 1 ≤ n)
    (attemptA attemptB : Nat → Except FetchError α) (e : Nat → FetchError)
    (a : α)
    (hret : ∀ i, (e i).retriable = true)
    (hfailA : ∀ i, i < n - 1 → attemptA i = Except.error (e i))
    (hokA : attemptA (n - 1) = Except.ok a)
    (hfailB : ∀ i, i < n → attemptB i = Except.error (e i)) :
    backoffCall attemptA n 0 = (Except.ok a, n)
    ∧ backoffCall attemptB n 0 = (Except.error (e (n - 1)), n) := by
  constructor
  · have := backoffCall_eventual_ok attemptA e a n 0 hn
      (fun i hi => by simpa using hfailA i hi) hret
      (by simpa using hokA)
    simpa using this
  · have := backoffCall_all_retriable_fail attemptB e n 0 hn
      (fun i hi => by simpa using hfailB i hi) hret
    simpa using this

/-- C5 (witness): with `max_tries = 3`, two timeouts then a success give the
success after exactly 3 attempts; three timeouts give the timeout error
after exactly 3 attempts. -/
theorem c5_retry_attempt_counts_witness :
    1 ≤ 3
    ∧ (backoffCall (fun i => if i < 2
          then (Except.error FetchError.timeoutError : Except FetchError Nat)
          else Except.ok 7) 3 0 = (Except.ok 7, 3)
      ∧ backoffCall
          (fun _ => (Except.error FetchError.timeoutError : Except FetchError Nat))
          3 0 = (Except.error FetchError.timeoutError, 3)) :=
  ⟨by decide,
   c5_retry_attempt_counts 3 (by decide) _ _
     (fun _ => FetchError.timeoutError) 7 (fun _ => rfl)
     (fun i hi => by rw [if_pos hi])
     (by decide) (fun _ _ => rfl)⟩

/-! ## Claim theorems: ingestion status coordination (C6, C7) -/

/-- A store holding exactly one freshly accepted activity, as produced by a
one-item `start_upload` request: the blob at `activity:a1` is IN_PROGRESS
with `completed_tasks = 0`. -/
def acceptedUploadStore : IngestStore :=
  (startUpload IngestStore.empty ("b1") [("a1")] [⟨("t.fit"), none⟩]).2.1

/-- C6 (code evaluation at the failing input): for an accepted item whose
three sub-tasks all succeed, the claimed counter-based promotion never
happens.  Every `increment_completed_tasks` call addresses the string-typed
blob key with a hash command and fails with WRONGTYPE (second conjunct);
`process_with_status` swallows the error (main.py lines 306-313), so after
all `numSubTasks` sub-tasks succeed the item's record still shows
IN_PROGRESS with its `completed_tasks` entry at 0 — it is never promoted to
COMPLETED (first conjunct) — although the claim, the spec in section 4.4,
the unit tests' working mock of `hincrby`, and the unreachable comparison at
main.py line 274 all require promotion exactly when the post-increment
counter equals `total_tasks`. -/
theorem c6_never_promoted :
    (runTasks acceptedUploadStore numSubTasks
        ((scheduledFor ("a1")).zip
          [(true, ("m1")), (true, ("m2")), (true, ("m3"))])).strings
        (activityKey ("a1"))
      = some { status := UploadStatus.in_progress, completed_tasks := 0,
               error_message := none, error := none }
    ∧ incrementCompletedTasks acceptedUploadStore ("a1") numSubTasks
        = Except.error RedisError.wrongType := by
  exact ⟨by decide, rfl⟩

/-- C7: once an item's blob is FAILED, any further sequence of sub-task
executions for that same submission leaves the whole store — in particular
the item's status record — untouched: each `process_with_status` call sees
the FAILED status and returns without running its task or writing, so
nothing can move the record back to COMPLETED or IN_PROGRESS. -/
theorem c7_failed_is_terminal (st : IngestStore) (aid : String)
    (r : ActivityRecord) (hr : st.strings (activityKey aid) = some r)
    (hf : r.status = UploadStatus.failed)
    (l : List (ScheduledTask × Bool × String))
    (hl : ∀ t ∈ l, t.1.activity_id = aid) :
    runTasks st numSubTasks l = st
    ∧ (runTasks st numSubTasks l).strings (activityKey aid) = some r := by
  have hstep : ∀ (b : Bool) (m : String),
      processWithStatus st aid numSubTasks b m = st := by
    intro b m
    unfold processWithStatus
    simp [hr, hf]
  have hmain : ∀ (l' : List (ScheduledTask × Bool × String)),
      (∀ t ∈ l', t.1.activity_id = aid) →
      runTasks st numSubTasks l' = st := by
    intro l'
    induction l' with
    | nil => intro _; rfl
    | cons t rest ih =>
      intro hl'
      have ht := hl' t (List.mem_cons_self t rest)
      have hcons : runTasks st numSubTasks (t :: rest) =
          runTasks (processWithStatus st t.1.activity_id numSubTasks
            t.2.1 t.2.2) numSubTasks rest := rfl
      rw [hcons, ht, hstep]
      exact ih (fun t' ht' => hl' t' (List.mem_cons_of_mem t ht'))
  exact ⟨hmain l hl, by rw [hmain l hl, hr]⟩

/-- A FAILED item record, as left behind by a failed sub-task. -/
def failedRecEx : ActivityRecord :=
  { status := UploadStatus.failed, completed_tasks := 0,
    error_message := none, error := some ("boom") }

/-- A store holding one item whose status is FAILED. -/
def failedItemStore : IngestStore :=
  { IngestStore.empty with
    strings := StrMap.empty.set (activityKey ("a1")) failedRecEx }

/-- C7 (witness). -/
theorem c7_failed_is_terminal_witness :
    failedItemStore.strings (activityKey ("a1")) = some failedRecEx
    ∧ failedRecEx.status = UploadStatus.failed
    ∧ (runTasks failedItemStore numSubTasks
        [(⟨("a1"), SubTaskKind.createActivity⟩, true, ("ok"))]
        = failedItemStore
      ∧ (runTasks failedItemStore numSubTasks
          [(⟨("a1"), SubTaskKind.createActivity⟩, true, ("ok"))]).strings
          (activityKey ("a1")) = some failedRecEx) :=
  ⟨by decide, by decide,
   c7_failed_is_terminal failedItemStore ("a1") failedRecEx (by decide)
     (by decide) [(⟨("a1"), SubTaskKind.createActivity⟩, true, ("ok"))]
     (by decide)⟩

/-! ## Lemmas about `start_upload`'s per-item loop (for C8, C9) -/

/-- The blob `start_upload` leaves for one `(activity, file)` pair: a FAILED
record with `completed_tasks = 0` and a descriptive message for an
unparseable payload; an IN_PROGRESS record for an accepted one. -/
def recordOf (f : FitFileInput) : ActivityRecord :=
  match f.parseError with
  | some msg =>
    { status := UploadStatus.failed, completed_tasks := 0,
      error_message := some (("Invalid FIT file: ") ++ msg), error := none }
  | none =>
    { status := UploadStatus.in_progress, completed_tasks := 0,
      error_message := none, error := none }

/-- The background tasks queued by the loop over a pair list: three
sub-tasks per parseable item, none for an unparseable one. -/
def tasksOf : List (String × FitFileInput) → List ScheduledTask
  | [] => []
  | (aid, f) :: rest =>
    (match f.parseError with
      | none => scheduledFor aid
      | some _ => []) ++ tasksOf rest

theorem updateActivityStatus_strings_other (st : IngestStore) (aid : String)
    (s : UploadStatus) (e : Option String) (k : String)
    (hk : k ≠ activityKey aid) :
    (updateActivityStatus st aid s e).strings k = st.strings k := by
  unfold updateActivityStatus
  cases h : st.strings (activityKey aid) <;> simp [h, StrMap.set_other _ _ _ _ hk]

theorem processUploadItem_strings_other
    (acc : IngestStore × List ScheduledTask) (item : String × FitFileInput)
    (k : String) (hk : k ≠ activityKey item.1) :
    (processUploadItem acc item).1.strings k = acc.1.strings k := by
  rcases acc with ⟨st, ts⟩
  rcases item with ⟨aid, f⟩
  unfold processUploadItem
  cases hf : f.parseError with
  | some msg => simp [hf, StrMap.set_other _ _ _ _ hk]
  | none =>
    simp only [hf]
    rw [updateActivityStatus_strings_other _ _ _ _ _ hk]
    simp [StrMap.set_other _ _ _ _ hk]

theorem processUploadItem_strings_self
    (acc : IngestStore × List ScheduledTask) (aid : String)
    (f : FitFileInput) :
    (processUploadItem acc (aid, f)).1.strings (activityKey aid)
      = some (recordOf f) := by
  rcases acc with ⟨st, ts⟩
  unfold processUploadItem recordOf
  cases hf : f.parseError with
  | some msg => simp [hf, StrMap.set_self]
  | none =>
    simp only [hf]
    unfold updateActivityStatus
    simp [StrMap.set_self]

theorem processUploadItem_tasks (acc : IngestStore × List ScheduledTask)
    (aid : String) (f : FitFileInput) :
    (processUploadItem acc (aid, f)).2 =
      acc.2 ++ (match f.parseError with
        | none => scheduledFor aid
        | some _ => []) := by
  rcases acc with ⟨st, ts⟩
  cases hf : f.parseError <;> simp [processUploadItem, hf]

theorem foldl_processUploadItem_strings_other :
    ∀ (ps : List (String × FitFileInput))
      (acc : IngestStore × List ScheduledTask) (k : String),
    (∀ p ∈ ps, k ≠ activityKey p.1) →
    (ps.foldl processUploadItem acc).1.strings k = acc.1.strings k := by
  intro ps
  induction ps with
  | nil => intro acc k _; rfl
  | cons p rest ih =>
    intro acc k hk
    have hstep : rest.foldl processUploadItem (processUploadItem acc p)
        = (p :: rest).foldl processUploadItem acc := rfl
    rw [← hstep] at *
    rw [ih (processUploadItem acc p) k
      (fun p' hp' => hk p' (List.mem_cons_of_mem p hp'))]
    exact processUploadItem_strings_other acc p k
      (hk p (List.mem_cons_self p rest))

theorem foldl_processUploadItem_tasks :
    ∀ (ps : List (String × FitFileInput))
      (acc : IngestStore × List ScheduledTask),
    (ps.foldl processUploadItem acc).2 = acc.2 ++ tasksOf ps := by
  intro ps
  induction ps with
  | nil => intro acc; simp [tasksOf]
  | cons p rest ih =>
    intro acc
    rcases p with ⟨aid, f⟩
    have hcons : ((aid, f) :: rest).foldl processUploadItem acc
        = rest.foldl processUploadItem (processUploadItem acc (aid, f)) := rfl
    rw [hcons, ih, processUploadItem_tasks, tasksOf, List.append_assoc]

theorem activity_id_of_mem_scheduledFor {t : ScheduledTask} {aid : String}
    (h : t ∈ scheduledFor aid) : t.activity_id = aid := by
  simp [scheduledFor] at h
  rcases h with rfl | rfl | rfl <;> rfl

theorem mem_tasksOf :
    ∀ (ps : List (String × FitFileInput)) (t : ScheduledTask),
    t ∈ tasksOf ps →
    ∃ p ∈ ps, p.2.parseError = none ∧ t.activity_id = p.1 := by
  intro ps
  induction ps with
  | nil => intro t ht; simp [tasksOf] at ht
  | cons p rest ih =>
    intro t ht
    rcases p with ⟨aid, f⟩
    rw [tasksOf] at ht
    rcases List.mem_append.mp ht with hin | hin
    · cases hf : f.parseError with
      | none =>
        rw [hf] at hin
        exact ⟨(aid, f), List.mem_cons_self _ _, hf,
          activity_id_of_mem_scheduledFor hin⟩
      | some m => rw [hf] at hin; simp at hin
    · obtain ⟨p', hp', hpe, hid⟩ := ih t hin
      exact ⟨p', List.mem_cons_of_mem _ hp', hpe, hid⟩

theorem scheduledFor_sub_tasksOf :
    ∀ (ps : List (String × FitFileInput)) (aid : String) (f : FitFileInput),
    (aid, f) ∈ ps → f.parseError = none →
    ∀ t ∈ scheduledFor aid, t ∈ tasksOf ps := by
  intro ps
  induction ps with
  | nil => intro aid f hmem; simp at hmem
  | cons p rest ih =>
    intro aid f hmem hpe t ht
    rcases p with ⟨b, g⟩
    rw [tasksOf]
    rcases List.mem_cons.mp hmem with heq | hin
    · rw [Prod.mk.injEq] at heq
      obtain ⟨heq1, heq2⟩ := heq
      subst heq1
      subst heq2
      exact List.mem_append_left _ (by rw [hpe]; exact ht)
    · exact List.mem_append_right _ (ih aid f hin hpe t ht)

theorem nodup_fst_snd_eq :
    ∀ (ps : List (String × FitFileInput)) (a : String)
      (x y : FitFileInput),
    (a, x) ∈ ps → (a, y) ∈ ps → (ps.map Prod.fst).Nodup → x = y := by
  intro ps
  induction ps with
  | nil => intro a x y hx; simp at hx
  | cons p rest ih =>
    intro a x y hx hy hnd
    rcases p with ⟨b, g⟩
    simp only [List.map_cons, List.nodup_cons] at hnd
    rcases List.mem_cons.mp hx with hxe | hxin
    · rcases List.mem_cons.mp hy with hye | hyin
      · rw [Prod.mk.injEq] at hxe hye
        rw [hxe.2, hye.2]
      · exfalso
        rw [Prod.mk.injEq] at hxe
        apply hnd.1
        rw [← hxe.1]
        exact List.mem_map_of_mem Prod.fst hyin
    · rcases List.mem_cons.mp hy with hye | hyin
      · exfalso
        rw [Prod.mk.injEq] at hye
        apply hnd.1
        rw [← hye.1]
        exact List.mem_map_of_mem Prod.fst hxin
      · exact ih a x y hxin hyin hnd.2

theorem foldl_processUploadItem_strings_of_mem :
    ∀ (ps : List (String × FitFileInput))
      (acc : IngestStore × List ScheduledTask) (aid : String)
      (f : FitFileInput),
    (aid, f) ∈ ps → (ps.map Prod.fst).Nodup →
    (ps.foldl processUploadItem acc).1.strings (activityKey aid)
      = some (recordOf f) := by
  intro ps
  induction ps with
  | nil => intro acc aid f hmem; simp at hmem
  | cons p rest ih =>
    intro acc aid f hmem hnd
    rcases p with ⟨b, g⟩
    simp only [List.map_cons, List.nodup_cons] at hnd
    have hcons : ((b, g) :: rest).foldl processUploadItem acc
        = rest.foldl processUploadItem (processUploadItem acc (b, g)) := rfl
    rcases List.mem_cons.mp hmem with heq | hin
    · rw [Prod.mk.injEq] at heq
      obtain ⟨rfl, rfl⟩ := heq
      rw [hcons]
      rw [foldl_processUploadItem_strings_other rest _ _ ?_]
      · exact processUploadItem_strings_self acc aid f
      · intro p' hp' hk
        apply hnd.1
        have : p'.1 = aid := activityKey_inj hk.symm
        rw [← this]
        exact List.mem_map_of_mem Prod.fst hp'
    · rw [hcons]
      exact ih (processUploadItem acc (b, g)) aid f hin hnd.2

/-! ## Claim theorems: payload validation and item polling (C8, C9) -/

/-- C8: in a request whose metadata count matches its file count and whose
filenames pass the `.fit` check, an item with an unparseable payload gets an
ActivityStatus blob with status FAILED, `completed_tasks = 0` and a
descriptive error, and no storage sub-task is queued for it — while every
parseable sibling in the same request still has all three of its sub-tasks
queued. -/
theorem c8_invalid_payload (st : IngestStore) (batchId : String)
    (activityIds : List String) (files : List FitFileInput)
    (hlen : activityIds.length = files.length)
    (hfit : ∀ f ∈ files, isFitFilename f.filename = true)
    (hnd : activityIds.Nodup)
    (aid : String) (f : FitFileInput) (msg : String)
    (hmem : (aid, f) ∈ activityIds.zip files)
    (hinv : f.parseError = some msg) :
    (startUpload st batchId activityIds files).2.1.strings (activityKey aid)
      = some { status := UploadStatus.failed, completed_tasks := 0,
               error_message := some (("Invalid FIT file: ") ++ msg),
               error := none }
    ∧ (∀ t ∈ (startUpload st batchId activityIds files).2.2,
        t.activity_id ≠ aid)
    ∧ (∀ b g, (b, g) ∈ activityIds.zip files → g.parseError = none →
        ∀ t ∈ scheduledFor b,
          t ∈ (startUpload st batchId activityIds files).2.2) := by
  have h2 : files.any (fun f => !isFitFilename f.filename) = false := by
    rw [List.any_eq_false]
    intro g hg
    simp [hfit g hg]
  have hndz : ((activityIds.zip files).map Prod.fst).Nodup := by
    rw [List.map_fst_zip activityIds files hlen.le]
    exact hnd
  simp only [startUpload, hlen, ne_eq, not_true_eq_false, if_false, h2,
    Bool.false_eq_true]
  refine ⟨?_, ?_, ?_⟩
  · rw [foldl_processUploadItem_strings_of_mem (activityIds.zip files) _
      aid f hmem hndz]
    simp [recordOf, hinv]
  · intro t ht hta
    rw [foldl_processUploadItem_tasks] at ht
    simp only [List.nil_append] at ht
    obtain ⟨p, hp, hpe, hid⟩ := mem_tasksOf _ t ht
    rcases p with ⟨b, g⟩
    rw [hta] at hid
    subst hid
    have := nodup_fst_snd_eq _ _ _ _ hp hmem hndz
    rw [this, hinv] at hpe
    cases hpe
  · intro b g hbg hge t ht
    rw [foldl_processUploadItem_tasks]
    simp only [List.nil_append]
    exact scheduledFor_sub_tasksOf _ b g hbg hge t ht

/-- Example inputs of a two-item upload, the first unparseable. -/
def uploadIdsEx : List String := [("bad1"), ("good2")]

/-- The matching files: a corrupt payload and a parseable one. -/
def uploadFilesEx : List FitFileInput :=
  [⟨("a.fit"), some ("boom")⟩, ⟨("b.fit"), none⟩]

/-- C8 (witness). -/
theorem c8_invalid_payload_witness :
    uploadIdsEx.length = uploadFilesEx.length
    ∧ (∀ f ∈ uploadFilesEx, isFitFilename f.filename = true)
    ∧ uploadIdsEx.Nodup
    ∧ ((("bad1"), (⟨("a.fit"), some ("boom")⟩ : FitFileInput))
        ∈ uploadIdsEx.zip uploadFilesEx)
    ∧ (startUpload IngestStore.empty ("batch") uploadIdsEx
        uploadFilesEx).2.1.strings (activityKey ("bad1"))
      = some { status := UploadStatus.failed, completed_tasks := 0,
               error_message := some (("Invalid FIT file: ") ++ ("boom")),
               error := none } :=
  ⟨by decide, by decide, by decide, by decide,
   (c8_invalid_payload IngestStore.empty ("batch") uploadIdsEx uploadFilesEx
     (by decide) (by decide) (by decide) ("bad1")
     ⟨("a.fit"), some ("boom")⟩ ("boom") (by decide) rfl).1⟩

/-- C9: the poll-item-status endpoint never finds an accepted item.  After a
one-item `start_upload` whose payload is accepted (its blob is written under
key `activity:a1`), polling item `a1` returns 404 because `get_upload_status`
reads the hash at key `status:a1`, a keyspace nothing in the service writes —
and it still returns 404 after all three sub-tasks complete. -/
theorem c9_poll_reads_wrong_key :
    (startUpload IngestStore.empty ("b1") [("a1")]
        [⟨("t.fit"), none⟩]).2.1.strings (activityKey ("a1"))
      = some { status := UploadStatus.in_progress, completed_tasks := 0,
               error_message := none, error := none }
    ∧ getUploadStatus
        (startUpload IngestStore.empty ("b1") [("a1")]
          [⟨("t.fit"), none⟩]).2.1 ("a1") = HttpResult.error 404
    ∧ getUploadStatus
        (runTasks
          (startUpload IngestStore.empty ("b1") [("a1")]
            [⟨("t.fit"), none⟩]).2.1
          numSubTasks
          ((startUpload IngestStore.empty ("b1") [("a1")]
            [⟨("t.fit"), none⟩]).2.2.zip
            [(true, ("m1")), (true, ("m2")), (true, ("m3"))]))
        ("a1") = HttpResult.error 404 := by
  exact ⟨by decide, by decide, by decide⟩
